import Mathlib

set_option maxRecDepth 8192

/-!
Shallow embedding of the users-api service (vector search + RAG orchestration)
of the AWS-ECS-Users repository.

Sources embedded:
- services/users-api/database.py: the authors table schema
  (SERIAL primary key id, UNIQUE email, embedding vector(1024)).
- services/users-api/vector_search.py: VectorSearchService
  (search_similar_authors, search_by_text, add_author_with_embedding,
  get_all_authors, get_author_by_id).
- services/users-api/bedrock_client.py: BedrockClient
  (generate_embedding request shape, generate_text, answer_question_with_context).
- services/users-api/main.py: the FastAPI endpoints create_author, get_authors,
  get_author, ask_question, read_users_legacy, read_user_legacy.

Modelling choices:
- The PostgreSQL authors table is a list of rows (AuthorRow); SERIAL id
  assignment is modelled by nextId (one more than the maximum id present).
- Vector components are rationals; the pgvector cosine-distance operator
  appearing in the SQL is modelled as an abstract distance parameter
  dist : List Rat -> List Rat -> Rat, because its value (which involves a
  real square root) never matters to the properties proved here, only how
  the SQL filters, orders and limits by it.
- The external Bedrock providers are parameters: embed : String -> List Rat
  for the embedding model and gen : String -> Nat -> String (prompt,
  max tokens) for the generation model.
- An ORDER BY on a non-unique key does not determine the relative order of
  tied rows, so the similarity query is given a relational semantics
  (IsSearchResult): any filter-respecting, distance-sorted, limited
  projection is an admissible result. A deterministic representative
  (search_similar_authors, using a stable merge sort over the table in id
  order) is also defined and proved admissible, and is used to run the
  composed endpoint pipelines.
- Provider interactions of an endpoint call are recorded as an explicit
  event trace so that claims about what was invoked, with which arguments
  and in which order, are statable.
-/

/-- Row of the authors table created by DatabaseConnection._initialize_database:
id SERIAL PRIMARY KEY, name, email (UNIQUE), bio, expertise, embedding vector(1024). -/
structure AuthorRow where
  id : Nat
  name : String
  email : String
  bio : String
  expertise : String
  embedding : Option (List ℚ)
deriving Repr, DecidableEq

/-- Projection of a row to the columns returned by the service reads
(SELECT id, name, email, bio, expertise — the embedding column is not selected). -/
structure AuthorOut where
  id : Nat
  name : String
  email : String
  bio : String
  expertise : String
deriving Repr, DecidableEq

/-- Row of the result set of search_similar_authors: the five selected author
columns plus the derived similarity_score. -/
structure SimilarityResult where
  id : Nat
  name : String
  email : String
  bio : String
  expertise : String
  similarity_score : ℚ
deriving Repr, DecidableEq

/-- Dimensionality of the embedding column, from the schema: embedding vector(1024). -/
def authors_embedding_dim : Nat := 1024

/-- Projection used by the RETURNING clause of the insert and by all reads. -/
def authorOut (r : AuthorRow) : AuthorOut :=
  ⟨r.id, r.name, r.email, r.bio, r.expertise⟩

/-- Projection of a search result onto the Author response model
(pydantic Author keeps id, name, email, bio, expertise and drops the extra
similarity_score key). -/
def resultToAuthor (s : SimilarityResult) : AuthorOut :=
  ⟨s.id, s.name, s.email, s.bio, s.expertise⟩

/-- Next id assigned by the SERIAL column: larger than every id in the table. -/
def nextId (table : List AuthorRow) : Nat :=
  (table.map (fun r => r.id)).foldr max 0 + 1

/-- Errors raised by the store inside the INSERT statement: the UNIQUE
constraint on email, and the vector(1024) dimension check on the cast. -/
inductive DBError where
  | duplicateKey
  | dimensionMismatch
deriving Repr, DecidableEq

/-- Embedding of the INSERT INTO authors statement of add_author_with_embedding:
the vector(1024) column rejects a vector of the wrong length, the UNIQUE
constraint on email rejects a duplicate email, otherwise the row is appended
with the store-assigned id and the statement returns the row. Nothing is
persisted on failure (the INSERT is atomic). -/
def insertAuthor (table : List AuthorRow) (name email bio expertise : String)
    (emb : List ℚ) : Except DBError (AuthorRow × List AuthorRow) :=
  if emb.length ≠ authors_embedding_dim then .error .dimensionMismatch
  else if table.any (fun r => r.email = email) then .error .duplicateKey
  else
    let r : AuthorRow := ⟨nextId table, name, email, bio, expertise, some emb⟩
    .ok (r, table ++ [r])

/-! ### The similarity query (vector_search.py, search_similar_authors)

SQL embedded:
SELECT id, name, email, bio, expertise, 1 - (embedding <=> q) AS similarity_score
FROM authors
WHERE embedding IS NOT NULL AND 1 - (embedding <=> q) > threshold
ORDER BY embedding <=> q
LIMIT top_k
-/

/-- Rows passing the WHERE clause: embedding IS NOT NULL and
1 - (embedding <=> q) > threshold; each kept with its embedding. -/
def matchingRows (dist : List ℚ → List ℚ → ℚ) (table : List AuthorRow)
    (q : List ℚ) (threshold : ℚ) : List (AuthorRow × List ℚ) :=
  table.filterMap fun r =>
    r.embedding.bind fun e =>
      if threshold < 1 - dist e q then some (r, e) else none

/-- SELECT list of the similarity query: the five author columns and the
derived similarity_score = 1 - (embedding <=> q). -/
def toResult (dist : List ℚ → List ℚ → ℚ) (q : List ℚ)
    (p : AuthorRow × List ℚ) : SimilarityResult :=
  ⟨p.1.id, p.1.name, p.1.email, p.1.bio, p.1.expertise, 1 - dist p.2 q⟩

/-- Relational semantics of the similarity query: res is an admissible result
set iff it is the LIMIT top_k prefix of some ordering of the matching rows
that is sorted by the ORDER BY key (ascending distance), projected through
the SELECT list. The ordering is existential because ORDER BY on a
non-unique key leaves the relative order of tied rows unspecified. -/
def IsSearchResult (dist : List ℚ → List ℚ → ℚ) (table : List AuthorRow)
    (q : List ℚ) (top_k : Nat) (threshold : ℚ)
    (res : List SimilarityResult) : Prop :=
  ∃ ordering : List (AuthorRow × List ℚ),
    ordering.Perm (matchingRows dist table q threshold) ∧
    ordering.Pairwise (fun a b => dist a.2 q ≤ dist b.2 q) ∧
    res = (ordering.take top_k).map (toResult dist q)

/-- Deterministic representative of the similarity query: a stable merge sort
of the matching rows (in table order) by ascending distance, limited and
projected. -/
def search_similar_authors (dist : List ℚ → List ℚ → ℚ) (table : List AuthorRow)
    (q : List ℚ) (top_k : Nat) (threshold : ℚ) : List SimilarityResult :=
  (((matchingRows dist table q threshold).mergeSort
      (fun a b => decide (dist a.2 q ≤ dist b.2 q))).take top_k).map (toResult dist q)

/-! ### bedrock_client.py -/

/-- Request body built by BedrockClient.generate_embedding:
inputText, dimensions = 1024, normalize = True. -/
structure EmbedRequest where
  inputText : String
  dimensions : Nat
  normalize : Bool
deriving Repr, DecidableEq

/-- Request body sent to the embedding model by generate_embedding. -/
def generate_embedding_request (text : String) : EmbedRequest :=
  ⟨text, 1024, true⟩

/-- Context block built by answer_question_with_context for one retrieved
author: labeled name, email, bio and expertise lines. -/
def authorContextBlock (s : SimilarityResult) : String :=
  "Autor: " ++ s.name ++ "\n" ++ "Email: " ++ s.email ++ "\n" ++
  "Bio: " ++ s.bio ++ "\n" ++ "Expertise: " ++ s.expertise

/-- Context string of answer_question_with_context: the blocks joined by a
blank line, in retrieval order. -/
def contextOfAuthors (ctx : List SimilarityResult) : String :=
  String.intercalate "\n\n" (ctx.map authorContextBlock)

/-- Prompt built by answer_question_with_context (its f-string, verbatim). -/
def answerPrompt (question : String) (ctx : List SimilarityResult) : String :=
  "\nCom base nos seguintes autores encontrados:\n\n" ++ contextOfAuthors ctx ++
  "\n\nResponda a seguinte pergunta: " ++ question ++
  "\n\nForneça uma resposta detalhada e informativa baseada apenas nas informações fornecidas.\n"

/-- Provider interactions recorded while serving a request. -/
inductive AskEvent where
  | searchCall (question : String) (top_k : Nat) (threshold : ℚ)
  | genCall (prompt : String) (maxTokens : Nat)
deriving Repr, DecidableEq

/-- BedrockClient.generate_text: one call to the generation model with the
given prompt and max_new_tokens budget; returns the answer and the call event. -/
def generate_text (gen : String → Nat → String) (prompt : String)
    (maxTokens : Nat) : String × List AskEvent :=
  (gen prompt maxTokens, [.genCall prompt maxTokens])

/-- BedrockClient.answer_question_with_context: formats the retrieved authors
into the prompt and calls generate_text with max_tokens = 512. -/
def answer_question_with_context (gen : String → Nat → String)
    (question : String) (ctx : List SimilarityResult) : String × List AskEvent :=
  generate_text gen (answerPrompt question ctx) 512

/-! ### vector_search.py service functions over the store -/

/-- VectorSearchService.search_by_text: embed the query text, then run the
similarity query (deterministic representative). -/
def search_by_text (embed : String → List ℚ) (dist : List ℚ → List ℚ → ℚ)
    (table : List AuthorRow) (query_text : String) (top_k : Nat)
    (threshold : ℚ) : List SimilarityResult :=
  search_similar_authors dist table (embed query_text) top_k threshold

/-- Store-level events of the author creation path. -/
inductive CreateEvent where
  | embedCall (text : String)
  | insertCall (name email bio expertise : String) (embedding : List ℚ)
deriving Repr, DecidableEq

/-- VectorSearchService.add_author_with_embedding: build the embedding-source
text, call the embedding model on it, then run the INSERT with the returned
vector. The event list records the two calls in execution order. -/
def add_author_with_embedding (embed : String → List ℚ) (table : List AuthorRow)
    (name email bio expertise : String) :
    Except DBError (AuthorOut × List AuthorRow) × List CreateEvent :=
  let text_for_embedding := name ++ ". " ++ bio ++ " Expertise: " ++ expertise
  let emb := embed text_for_embedding
  let events := [CreateEvent.embedCall text_for_embedding,
                 CreateEvent.insertCall name email bio expertise emb]
  match insertAuthor table name email bio expertise emb with
  | .ok (r, t) => (.ok (authorOut r, t), events)
  | .error err => (.error err, events)

/-- VectorSearchService.get_all_authors:
SELECT id, name, email, bio, expertise FROM authors ORDER BY id LIMIT limit. -/
def get_all_authors (table : List AuthorRow) (limit : Nat) : List AuthorOut :=
  (((table.mergeSort (fun a b => decide (a.id ≤ b.id))).take limit)).map authorOut

/-- VectorSearchService.get_author_by_id:
SELECT id, name, email, bio, expertise FROM authors WHERE id = author_id;
returns the first (unique) matching row or none. -/
def get_author_by_id (table : List AuthorRow) (author_id : Nat) : Option AuthorOut :=
  (table.find? (fun r => r.id = author_id)).map authorOut

/-! ### main.py endpoints -/

/-- Endpoint POST /authors (create_author): delegates to
add_author_with_embedding; any exception (duplicate key included) is turned
into an HTTP 500 response, and the store is unchanged on failure. -/
def create_author (embed : String → List ℚ) (table : List AuthorRow)
    (name email bio expertise : String) :
    Except Nat AuthorOut × List AuthorRow :=
  match (add_author_with_embedding embed table name email bio expertise).1 with
  | .ok (a, t) => (.ok a, t)
  | .error _ => (.error 500, table)

/-- Endpoint GET /authors (get_authors): the limit query parameter is
validated to 1..1000 by FastAPI (422 otherwise), then get_all_authors runs. -/
def get_authors (table : List AuthorRow) (limit : Nat) : Except Nat (List AuthorOut) :=
  if 1 ≤ limit ∧ limit ≤ 1000 then .ok (get_all_authors table limit)
  else .error 422

/-- Endpoint GET /authors/id (get_author): 404 when get_author_by_id finds
nothing. -/
def get_author (table : List AuthorRow) (author_id : Nat) : Except Nat AuthorOut :=
  match get_author_by_id table author_id with
  | some a => .ok a
  | none => .error 404

/-- Response model of POST /ask. -/
structure QuestionResponse where
  question : String
  answer : String
  context_authors : List AuthorOut
deriving Repr, DecidableEq

/-- Endpoint POST /ask (ask_question): runs search_by_text with the fixed
threshold 0.3; when the result set is empty raises HTTP 404 without calling
the generation model; otherwise calls answer_question_with_context and
returns the question, the answer and the retrieved authors. The event trace
records the retrieval call and any generation call, in order. -/
def ask_question (embed : String → List ℚ) (gen : String → Nat → String)
    (dist : List ℚ → List ℚ → ℚ) (table : List AuthorRow)
    (question : String) (top_k : Nat) :
    Except Nat QuestionResponse × List AskEvent :=
  let results := search_by_text embed dist table question top_k (3 / 10)
  let tr := [AskEvent.searchCall question top_k (3 / 10)]
  if results = [] then
    (.error 404, tr)
  else
    let a := answer_question_with_context gen question results
    (.ok ⟨question, a.1, results.map resultToAuthor⟩, tr ++ a.2)

/-- Endpoint GET /users (read_users_legacy): calls the get_authors handler
with limit = 100. -/
def read_users_legacy (table : List AuthorRow) : Except Nat (List AuthorOut) :=
  get_authors table 100

/-- Endpoint GET /users/id (read_user_legacy): calls the get_author handler. -/
def read_user_legacy (table : List AuthorRow) (user_id : Nat) : Except Nat AuthorOut :=
  get_author table user_id

/-- Dimension invariant of the store: every non-null embedding has the
configured length (vector(1024)). -/
def rowDimOK (r : AuthorRow) : Bool :=
  match r.embedding with
  | none => true
  | some e => e.length == authors_embedding_dim

/-- Store-wide dimension invariant. -/
def StoreDim (table : List AuthorRow) : Prop :=
  ∀ r ∈ table, rowDimOK r = true

/-! ### Concrete instances used by counterexamples and witnesses -/

/-- Concrete stored vector of the configured dimension. -/
def cexVec : List ℚ := List.replicate 1024 1

/-- Concrete distinct stored vector of the configured dimension. -/
def altVec : List ℚ := List.replicate 1024 0

/-- Concrete distance function for closed instances: 0 on equal vectors
(as cosine distance is), positive otherwise. The two rows below carry the
same stored vector, so every distance function ties them; this one makes
the tie computable. -/
def distEx : List ℚ → List ℚ → ℚ := fun a b => if a = b then 0 else 1

/-- Author row with id 1 whose stored embedding equals cexVec. -/
def cexRow1 : AuthorRow := ⟨1, "Ana", "ana@example.com", "bio a", "x", some cexVec⟩

/-- Author row with id 2 whose stored embedding also equals cexVec. -/
def cexRow2 : AuthorRow := ⟨2, "Bia", "bia@example.com", "bio b", "x", some cexVec⟩

/-- Copy of cexRow1 whose stored embedding is altVec instead of cexVec. -/
def cexRow1Alt : AuthorRow := ⟨1, "Ana", "ana@example.com", "bio a", "x", some altVec⟩

/-- Store holding the two tied rows, in id order. -/
def cexTable : List AuthorRow := [cexRow1, cexRow2]

/-- Similarity result of cexRow1 against query cexVec (score 1). -/
def cexRes1 : SimilarityResult := ⟨1, "Ana", "ana@example.com", "bio a", "x", 1⟩

/-- Similarity result of cexRow2 against query cexVec (score 1). -/
def cexRes2 : SimilarityResult := ⟨2, "Bia", "bia@example.com", "bio b", "x", 1⟩

/-- Stub embedding provider for closed instances: always returns cexVec. -/
def wEmbed : String → List ℚ := fun _ => cexVec

/-- Stub generation provider for closed instances. -/
def wGen : String → Nat → String := fun _ _ => "resposta"

/-! ### Helper lemmas -/

theorem mem_matchingRows {dist : List ℚ → List ℚ → ℚ} {table : List AuthorRow}
    {q : List ℚ} {t : ℚ} {p : AuthorRow × List ℚ} :
    p ∈ matchingRows dist table q t ↔
      p.1 ∈ table ∧ p.1.embedding = some p.2 ∧ t < 1 - dist p.2 q := by
  simp only [matchingRows, List.mem_filterMap]
  constructor
  · rintro ⟨r, hr, hmap⟩
    cases he : r.embedding with
    | none => rw [he] at hmap; exact absurd hmap (by simp)
    | some e =>
      rw [he, Option.some_bind] at hmap
      by_cases hlt : t < 1 - dist e q
      · rw [if_pos hlt] at hmap
        obtain rfl : (r, e) = p := Option.some.inj hmap
        exact ⟨hr, he, hlt⟩
      · rw [if_neg hlt] at hmap; exact absurd hmap (by simp)
  · rintro ⟨hmem, hemb, hscore⟩
    refine ⟨p.1, hmem, ?_⟩
    rw [hemb, Option.some_bind, if_pos hscore]

theorem le_foldr_max (l : List Nat) (a : Nat) (h : a ∈ l) : a ≤ l.foldr max 0 := by
  induction l with
  | nil => cases h
  | cons x xs ih =>
    rcases List.mem_cons.mp h with rfl | h
    · exact le_max_left _ _
    · exact le_trans (ih h) (le_max_right _ _)

theorem lt_nextId {table : List AuthorRow} {r : AuthorRow} (h : r ∈ table) :
    r.id < nextId table := by
  have := le_foldr_max (table.map (fun r => r.id)) r.id
    (List.mem_map_of_mem _ h)
  unfold nextId
  omega

theorem search_similar_authors_admissible (dist : List ℚ → List ℚ → ℚ)
    (table : List AuthorRow) (q : List ℚ) (top_k : Nat) (threshold : ℚ) :
    IsSearchResult dist table q top_k threshold
      (search_similar_authors dist table q top_k threshold) := by
  refine ⟨(matchingRows dist table q threshold).mergeSort
    (fun a b => decide (dist a.2 q ≤ dist b.2 q)), List.mergeSort_perm _ _, ?_, rfl⟩
  have hs := @List.sorted_mergeSort _
    (fun a b => decide (dist a.2 q ≤ dist b.2 q))
    (fun a b c hab hbc => by
      simp only [decide_eq_true_eq] at *
      linarith)
    (fun a b => by
      simp only [Bool.or_eq_true, decide_eq_true_eq]
      exact le_total _ _)
    (matchingRows dist table q threshold)
  exact hs.imp (fun h => by simpa using h)

theorem cex_matchingRows_eval :
    matchingRows distEx cexTable cexVec 0 = [(cexRow1, cexVec), (cexRow2, cexVec)] := by
  simp [matchingRows, cexTable, cexRow1, cexRow2, distEx]

/-- Id-ascending tied result set is admissible for the query on cexTable. -/
theorem cex_isSearchResult_asc :
    IsSearchResult distEx cexTable cexVec 2 0 [cexRes1, cexRes2] := by
  refine ⟨[(cexRow1, cexVec), (cexRow2, cexVec)],
    List.Perm.of_eq cex_matchingRows_eval.symm, ?_, ?_⟩
  · simp [List.pairwise_cons]
  · simp [toResult, cexRes1, cexRes2, cexRow1, cexRow2, distEx]

/-- Id-descending tied result set is equally admissible for the same query. -/
theorem cex_isSearchResult_desc :
    IsSearchResult distEx cexTable cexVec 2 0 [cexRes2, cexRes1] := by
  refine ⟨[(cexRow2, cexVec), (cexRow1, cexVec)], ?_, ?_, ?_⟩
  · rw [cex_matchingRows_eval]
    exact List.Perm.swap _ _ _
  · simp [List.pairwise_cons]
  · simp [toResult, cexRes1, cexRes2, cexRow1, cexRow2, distEx]

/-! ### C1 -/

/-- C1 counterexample: two stored rows carrying the same embedding are tied in
similarity score; the SQL of search_similar_authors orders only by distance,
so the result listing the tied rows with ids descending is admissible, and it
violates the claimed ordering by descending score with ties broken by
ascending id. -/
theorem search_similar_tie_not_ordered_by_id :
    IsSearchResult distEx cexTable cexVec 2 0 [cexRes2, cexRes1] ∧
    ¬ ([cexRes2, cexRes1].Pairwise fun a b =>
        b.similarity_score < a.similarity_score ∨
        (a.similarity_score = b.similarity_score ∧ a.id < b.id)) := by
  refine ⟨cex_isSearchResult_desc, ?_⟩
  simp [List.pairwise_cons, cexRes1, cexRes2]

/-- C1 (amended): every admissible result of the similarity query has at most
top_k rows, contains only rows of the table with a non-null embedding and
similarity_score = 1 - distance strictly above the threshold, and is ordered
by descending similarity_score; the relative order of rows with tied scores
is not constrained. -/
theorem search_similar_bounded_filtered_sorted
    (dist : List ℚ → List ℚ → ℚ) (table : List AuthorRow) (q : List ℚ)
    (top_k : Nat) (threshold : ℚ) (res : List SimilarityResult)
    (h : IsSearchResult dist table q top_k threshold res) :
    res.length ≤ top_k ∧
    (∀ s ∈ res, threshold < s.similarity_score ∧
      ∃ r ∈ table, ∃ e, r.embedding = some e ∧ s = toResult dist q (r, e)) ∧
    res.Pairwise (fun a b => b.similarity_score ≤ a.similarity_score) := by
  obtain ⟨ord, hperm, hsort, hres⟩ := h
  subst hres
  refine ⟨?_, ?_, ?_⟩
  · simp
  · intro s hs
    simp only [List.mem_map] at hs
    obtain ⟨p, hp, rfl⟩ := hs
    have hp' : p ∈ ord := List.mem_of_mem_take hp
    have hm := mem_matchingRows.mp (hperm.mem_iff.mp hp')
    exact ⟨hm.2.2, p.1, hm.1, p.2, hm.2.1, rfl⟩
  · have h1 : (ord.take top_k).Pairwise (fun a b => dist a.2 q ≤ dist b.2 q) :=
      hsort.sublist (List.take_sublist _ _)
    rw [List.pairwise_map]
    exact h1.imp (fun hab => by simp only [toResult]; linarith)

/-- C1 witness: the bounded/filtered/sorted properties hold of the
id-ascending admissible result on the concrete two-row store. -/
theorem search_similar_bounded_filtered_sorted_witness :
    IsSearchResult distEx cexTable cexVec 2 0 [cexRes1, cexRes2] ∧
    ([cexRes1, cexRes2].length ≤ 2 ∧
      (∀ s ∈ [cexRes1, cexRes2], (0:ℚ) < s.similarity_score ∧
        ∃ r ∈ cexTable, ∃ e, r.embedding = some e ∧ s = toResult distEx cexVec (r, e)) ∧
      ([cexRes1, cexRes2].Pairwise fun a b => b.similarity_score ≤ a.similarity_score)) :=
  ⟨cex_isSearchResult_asc,
    search_similar_bounded_filtered_sorted distEx cexTable cexVec 2 0
      [cexRes1, cexRes2] cex_isSearchResult_asc⟩

/-! ### Pipeline evaluation helpers -/

/-- Similarity search over an empty store returns no results. -/
theorem empty_search_eval :
    search_by_text wEmbed distEx [] "quem" 3 (3 / 10) = [] := by
  simp [search_by_text, search_similar_authors, matchingRows]

/-- Similarity search over the single-row store retrieves that row with
score 1 above the grounding threshold. -/
theorem single_search_eval :
    search_by_text wEmbed distEx [cexRow1] "quem" 3 (3 / 10) = [cexRes1] := by
  have h1 : matchingRows distEx [cexRow1] cexVec (3 / 10) = [(cexRow1, cexVec)] := by
    norm_num [matchingRows, cexRow1, distEx, List.filterMap_cons]
  unfold search_by_text search_similar_authors
  rw [show wEmbed "quem" = cexVec from rfl, h1]
  norm_num [toResult, cexRes1, cexRow1, distEx]

/-! ### C2 -/

/-- C2: when the similarity search for the question yields no record above the
grounding threshold 0.3, ask_question fails with HTTP 404 (a not-found
response, not a server error) and no generation call is ever issued. -/
theorem ask_question_no_grounding_404_no_generation
    (embed : String → List ℚ) (gen : String → Nat → String)
    (dist : List ℚ → List ℚ → ℚ) (table : List AuthorRow)
    (question : String) (top_k : Nat)
    (h : search_by_text embed dist table question top_k (3 / 10) = []) :
    (ask_question embed gen dist table question top_k).1 = .error 404 ∧
    ∀ p m, AskEvent.genCall p m ∉ (ask_question embed gen dist table question top_k).2 := by
  constructor
  · simp [ask_question, h]
  · intro p m
    simp [ask_question, h]

/-- C2 witness: on the empty store the question finds no grounding context,
the response is 404 and the trace holds no generation call. -/
theorem ask_question_no_grounding_404_no_generation_witness :
    search_by_text wEmbed distEx [] "quem" 3 (3 / 10) = [] ∧
    ((ask_question wEmbed wGen distEx [] "quem" 3).1 = .error 404 ∧
      ∀ p m, AskEvent.genCall p m ∉ (ask_question wEmbed wGen distEx [] "quem" 3).2) :=
  ⟨empty_search_eval,
    ask_question_no_grounding_404_no_generation wEmbed wGen distEx [] "quem" 3
      empty_search_eval⟩

/-! ### C5 -/

/-- C5: author creation builds the embedding-source text exactly as
name ++ ". " ++ bio ++ " Expertise: " ++ expertise, calls the embedding
provider on that text, and only then issues the single INSERT, carrying the
provider's vector: the event trace is exactly the embed call followed by the
insert call, in both the success and the failure case. -/
theorem add_author_embed_text_then_insert (embed : String → List ℚ)
    (table : List AuthorRow) (name email bio expertise : String) :
    (add_author_with_embedding embed table name email bio expertise).2 =
      [CreateEvent.embedCall (name ++ ". " ++ bio ++ " Expertise: " ++ expertise),
       CreateEvent.insertCall name email bio expertise
         (embed (name ++ ". " ++ bio ++ " Expertise: " ++ expertise))] := by
  unfold add_author_with_embedding
  cases h : insertAuthor table name email bio expertise
      (embed (name ++ ". " ++ bio ++ " Expertise: " ++ expertise)) with
  | ok p => obtain ⟨r, t⟩ := p; simp [h]
  | error e => simp [h]

/-! ### C6 -/

/-- C6: ask_question always issues its retrieval call with the fixed grounding
threshold 3/10 (0.3), and every generation call it issues carries the bounded
token budget 512. -/
theorem ask_question_threshold_and_token_budget
    (embed : String → List ℚ) (gen : String → Nat → String)
    (dist : List ℚ → List ℚ → ℚ) (table : List AuthorRow)
    (question : String) (top_k : Nat) :
    AskEvent.searchCall question top_k (3 / 10)
      ∈ (ask_question embed gen dist table question top_k).2 ∧
    ∀ p m, AskEvent.genCall p m ∈ (ask_question embed gen dist table question top_k).2 →
      m = 512 := by
  unfold ask_question
  by_cases h : search_by_text embed dist table question top_k (3 / 10) = [] <;>
    simp [h, answer_question_with_context, generate_text]

/-! ### C7 -/

/-- C7: with a non-empty retrieved context, ask_question formats each context
author as a labeled block, joins the blocks with a blank line in retrieval
order, asks the generation model on instruction + context + the literal
question, and returns the question, the generated answer and exactly the
retrieved author list, in order. -/
theorem ask_question_formats_context_and_returns_it
    (embed : String → List ℚ) (gen : String → Nat → String)
    (dist : List ℚ → List ℚ → ℚ) (table : List AuthorRow)
    (question : String) (top_k : Nat)
    (h : search_by_text embed dist table question top_k (3 / 10) ≠ []) :
    (ask_question embed gen dist table question top_k).1 =
      .ok ⟨question,
        gen ("\nCom base nos seguintes autores encontrados:\n\n" ++
          String.intercalate "\n\n"
            ((search_by_text embed dist table question top_k (3 / 10)).map
              (fun s => "Autor: " ++ s.name ++ "\n" ++ "Email: " ++ s.email ++ "\n" ++
                "Bio: " ++ s.bio ++ "\n" ++ "Expertise: " ++ s.expertise)) ++
          "\n\nResponda a seguinte pergunta: " ++ question ++
          "\n\nForneça uma resposta detalhada e informativa baseada apenas nas informações fornecidas.\n")
          512,
        (search_by_text embed dist table question top_k (3 / 10)).map resultToAuthor⟩ := by
  unfold ask_question
  simp only [answer_question_with_context, generate_text, answerPrompt,
    contextOfAuthors, if_neg h]
  rfl

/-- C7 witness: on the single-row store the retrieved context is the single
author and the response carries the question, the generated answer for the
formatted prompt and that author. -/
theorem ask_question_formats_context_and_returns_it_witness :
    search_by_text wEmbed distEx [cexRow1] "quem" 3 (3 / 10) ≠ [] ∧
    (ask_question wEmbed wGen distEx [cexRow1] "quem" 3).1 =
      .ok ⟨"quem",
        wGen ("\nCom base nos seguintes autores encontrados:\n\n" ++
          String.intercalate "\n\n"
            ((search_by_text wEmbed distEx [cexRow1] "quem" 3 (3 / 10)).map
              (fun s => "Autor: " ++ s.name ++ "\n" ++ "Email: " ++ s.email ++ "\n" ++
                "Bio: " ++ s.bio ++ "\n" ++ "Expertise: " ++ s.expertise)) ++
          "\n\nResponda a seguinte pergunta: " ++ "quem" ++
          "\n\nForneça uma resposta detalhada e informativa baseada apenas nas informações fornecidas.\n")
          512,
        (search_by_text wEmbed distEx [cexRow1] "quem" 3 (3 / 10)).map resultToAuthor⟩ :=
  ⟨by simp [single_search_eval],
    ask_question_formats_context_and_returns_it wEmbed wGen distEx [cexRow1] "quem" 3
      (by simp [single_search_eval])⟩

/-! ### C3 -/

/-- C3 counterexample: creating an author whose email already exists is
surfaced by the create_author handler as HTTP 500 (its catch-all except
clause), not as a 409-equivalent response; the store is left unchanged. -/
theorem create_author_duplicate_not_409 :
    create_author wEmbed [cexRow1] "Nova" "ana@example.com" "b2" "x2" =
      (.error 500, [cexRow1]) ∧
    (create_author wEmbed [cexRow1] "Nova" "ana@example.com" "b2" "x2").1 ≠
      Except.error 409 := by
  have h : create_author wEmbed [cexRow1] "Nova" "ana@example.com" "b2" "x2" =
      (.error 500, [cexRow1]) := by
    simp [create_author, add_author_with_embedding, insertAuthor, wEmbed, cexVec,
      authors_embedding_dim, cexRow1]
  exact ⟨h, by rw [h]; simp⟩

/-- C3 (amended): creating an author with a duplicate email (the embedding
itself being of the configured dimension) fails inside the store with
DuplicateKey, no partial record is persisted and the store is unchanged; the
handler surfaces the failure as a generic HTTP 500 rather than a 409. -/
theorem create_author_duplicate_email_500_store_unchanged
    (embed : String → List ℚ) (table : List AuthorRow)
    (name email bio expertise : String) (r : AuthorRow)
    (hr : r ∈ table) (he : r.email = email)
    (hd : (embed (name ++ ". " ++ bio ++ " Expertise: " ++ expertise)).length
            = authors_embedding_dim) :
    (add_author_with_embedding embed table name email bio expertise).1 =
      .error .duplicateKey ∧
    create_author embed table name email bio expertise = (.error 500, table) := by
  have hdup : table.any (fun x => x.email = email) = true :=
    List.any_eq_true.mpr ⟨r, hr, by simp [he]⟩
  have h1 : insertAuthor table name email bio expertise
      (embed (name ++ ". " ++ bio ++ " Expertise: " ++ expertise)) =
        .error .duplicateKey := by
    unfold insertAuthor
    rw [if_neg (by simp [hd]), if_pos hdup]
  constructor
  · simp [add_author_with_embedding, h1]
  · simp [create_author, add_author_with_embedding, h1]

/-- C3 witness: the duplicate-email create on the concrete one-row store fails
with DuplicateKey at the store and returns 500 with the store unchanged. -/
theorem create_author_duplicate_email_500_store_unchanged_witness :
    cexRow1 ∈ [cexRow1] ∧ cexRow1.email = "ana@example.com" ∧
    (wEmbed ("Nova" ++ ". " ++ "b2" ++ " Expertise: " ++ "x2")).length
      = authors_embedding_dim ∧
    ((add_author_with_embedding wEmbed [cexRow1] "Nova" "ana@example.com" "b2" "x2").1 =
        .error .duplicateKey ∧
      create_author wEmbed [cexRow1] "Nova" "ana@example.com" "b2" "x2" =
        (.error 500, [cexRow1])) :=
  ⟨List.mem_singleton.mpr rfl, rfl, by simp [wEmbed, cexVec, authors_embedding_dim],
    create_author_duplicate_email_500_store_unchanged wEmbed [cexRow1]
      "Nova" "ana@example.com" "b2" "x2" cexRow1 (List.mem_singleton.mpr rfl) rfl
      (by simp [wEmbed, cexVec, authors_embedding_dim])⟩

/-! ### C4 -/

/-- C4 counterexample: get_author_by_id does not select the embedding column,
so the record it yields cannot contain the stored vector: two stores whose
rows differ only in the stored embedding give identical get_author_by_id
results even though the stored vectors differ. -/
theorem get_author_by_id_omits_embedding :
    get_author_by_id [cexRow1] 1 = get_author_by_id [cexRow1Alt] 1 ∧
    cexRow1.embedding ≠ cexRow1Alt.embedding := by
  constructor
  · rfl
  · show some cexVec ≠ some altVec
    intro hsome
    have hv : List.replicate 1024 (1 : ℚ) = List.replicate 1024 (0 : ℚ) :=
      Option.some.inj hsome
    have h10 : (1 : ℚ) = 0 :=
      List.replicate_right_injective (by norm_num : (1024 : ℕ) ≠ 0) hv
    norm_num at h10

/-- C4 (amended): a successful create (fresh email, provider vector of the
configured dimension) followed by get_author_by_id on the assigned id yields
a record with the identical four submitted fields, and the row persisted in
the store holds, verbatim and untruncated, the vector the provider returned;
the get_author_by_id projection itself omits the embedding column. -/
theorem create_then_get_roundtrip
    (embed : String → List ℚ) (table : List AuthorRow)
    (name email bio expertise : String)
    (hd : (embed (name ++ ". " ++ bio ++ " Expertise: " ++ expertise)).length
            = authors_embedding_dim)
    (hdup : ∀ r ∈ table, r.email ≠ email) :
    ∃ a t,
      (add_author_with_embedding embed table name email bio expertise).1 =
        .ok (a, t) ∧
      a.name = name ∧ a.email = email ∧ a.bio = bio ∧ a.expertise = expertise ∧
      get_author_by_id t a.id = some a ∧
      ∃ row ∈ t, row.id = a.id ∧
        row.embedding = some (embed (name ++ ". " ++ bio ++ " Expertise: " ++ expertise)) := by
  have hany : ¬ table.any (fun x => x.email = email) = true := by
    simp only [List.any_eq_true, decide_eq_true_eq]
    rintro ⟨r, hr, hre⟩
    exact hdup r hr hre
  have hins : insertAuthor table name email bio expertise
      (embed (name ++ ". " ++ bio ++ " Expertise: " ++ expertise)) =
      .ok (⟨nextId table, name, email, bio, expertise,
            some (embed (name ++ ". " ++ bio ++ " Expertise: " ++ expertise))⟩,
           table ++ [⟨nextId table, name, email, bio, expertise,
            some (embed (name ++ ". " ++ bio ++ " Expertise: " ++ expertise))⟩]) := by
    unfold insertAuthor
    rw [if_neg (by simp [hd]), if_neg hany]
  refine ⟨authorOut ⟨nextId table, name, email, bio, expertise,
      some (embed (name ++ ". " ++ bio ++ " Expertise: " ++ expertise))⟩,
    table ++ [⟨nextId table, name, email, bio, expertise,
      some (embed (name ++ ". " ++ bio ++ " Expertise: " ++ expertise))⟩],
    ?_, rfl, rfl, rfl, rfl, ?_, ?_⟩
  · simp [add_author_with_embedding, hins]
  · unfold get_author_by_id
    rw [List.find?_append]
    have hnone : table.find?
        (fun r => r.id = (authorOut ⟨nextId table, name, email, bio, expertise,
          some (embed (name ++ ". " ++ bio ++ " Expertise: " ++ expertise))⟩).id) = none := by
      rw [List.find?_eq_none]
      intro x hx
      simp only [authorOut, decide_eq_true_eq]
      exact Nat.ne_of_lt (lt_nextId hx)
    rw [hnone]
    simp [authorOut]
  · exact ⟨⟨nextId table, name, email, bio, expertise,
      some (embed (name ++ ". " ++ bio ++ " Expertise: " ++ expertise))⟩,
      by simp, rfl, rfl⟩

/-- C4 witness: creating the author on the empty store and reading it back by
id yields the submitted fields, and the persisted row holds the provider's
vector verbatim. -/
theorem create_then_get_roundtrip_witness :
    (wEmbed ("Ana" ++ ". " ++ "bio a" ++ " Expertise: " ++ "x")).length
      = authors_embedding_dim ∧
    (∀ r ∈ ([] : List AuthorRow), r.email ≠ "ana@example.com") ∧
    (∃ a t,
      (add_author_with_embedding wEmbed [] "Ana" "ana@example.com" "bio a" "x").1 =
        .ok (a, t) ∧
      a.name = "Ana" ∧ a.email = "ana@example.com" ∧ a.bio = "bio a" ∧
      a.expertise = "x" ∧
      get_author_by_id t a.id = some a ∧
      ∃ row ∈ t, row.id = a.id ∧
        row.embedding = some (wEmbed ("Ana" ++ ". " ++ "bio a" ++ " Expertise: " ++ "x"))) :=
  ⟨by simp [wEmbed, cexVec, authors_embedding_dim], by simp,
    create_then_get_roundtrip wEmbed [] "Ana" "ana@example.com" "bio a" "x"
      (by simp [wEmbed, cexVec, authors_embedding_dim]) (by simp)⟩

/-! ### C8 -/

/-- C8: the embedding provider is always asked for vectors of exactly the
configured dimension (the generate_embedding request fixes dimensions = 1024,
the dimensionality of the vector(1024) column), and any insert the store
accepts preserves the store-wide invariant that every non-null stored
embedding has that length. -/
theorem embedding_dimension_invariant
    (table : List AuthorRow) (name email bio expertise : String) (emb : List ℚ)
    (hs : StoreDim table) :
    (∀ text, (generate_embedding_request text).dimensions = authors_embedding_dim) ∧
    ∀ r t, insertAuthor table name email bio expertise emb = .ok (r, t) →
      StoreDim t := by
  refine ⟨fun _ => rfl, ?_⟩
  intro r t hok
  unfold insertAuthor at hok
  by_cases h1 : emb.length ≠ authors_embedding_dim
  · rw [if_pos h1] at hok; cases hok
  · rw [if_neg h1] at hok
    by_cases h2 : table.any (fun x => x.email = email) = true
    · rw [if_pos h2] at hok; cases hok
    · rw [if_neg h2] at hok
      simp only [Except.ok.injEq, Prod.mk.injEq] at hok
      obtain ⟨-, rfl⟩ := hok
      intro x hx
      rcases List.mem_append.mp hx with hx | hx
      · exact hs x hx
      · rw [List.mem_singleton] at hx
        subst hx
        simp only [rowDimOK, beq_iff_eq]
        omega

/-- C8 witness: the invariant holds of the empty store and is preserved by the
concrete insert of a 1024-dimensional vector. -/
theorem embedding_dimension_invariant_witness :
    StoreDim [] ∧
    ((∀ text, (generate_embedding_request text).dimensions = authors_embedding_dim) ∧
      ∀ r t, insertAuthor [] "Ana" "ana@example.com" "bio a" "x" cexVec = .ok (r, t) →
        StoreDim t) :=
  ⟨by simp [StoreDim],
    embedding_dimension_invariant [] "Ana" "ana@example.com" "bio a" "x" cexVec
      (by simp [StoreDim])⟩

/-! ### C9 -/

/-- C9: get_all_authors returns the authors ordered by ascending id, at most
limit of them; the read takes the store as a value and does not modify it, so
repeated calls with no intervening writes return the identical sequence. -/
theorem get_all_authors_ordered_bounded (table : List AuthorRow) (limit : Nat) :
    (get_all_authors table limit).length ≤ limit ∧
    (get_all_authors table limit).Pairwise (fun a b => a.id ≤ b.id) ∧
    get_all_authors table limit = get_all_authors table limit := by
  refine ⟨?_, ?_, rfl⟩
  · simp only [get_all_authors, List.length_map, List.length_take]
    exact Nat.min_le_left _ _
  · unfold get_all_authors
    rw [List.pairwise_map]
    have hs := @List.sorted_mergeSort _
      (fun a b : AuthorRow => decide (a.id ≤ b.id))
      (fun a b c hab hbc => by
        simp only [decide_eq_true_eq] at *
        omega)
      (fun a b => by
        simp only [Bool.or_eq_true, decide_eq_true_eq]
        omega)
      table
    have ht : ((table.mergeSort (fun a b => decide (a.id ≤ b.id))).take limit).Pairwise
        (fun a b : AuthorRow => decide (a.id ≤ b.id) = true) :=
      hs.sublist (List.take_sublist _ _)
    exact ht.imp (fun hab => by simpa [authorOut] using hab)

/-! ### C10 -/

/-- C10: the legacy endpoints delegate to the author endpoints: GET /users
returns exactly the result of GET /authors with limit 100 (the ordered list),
and GET /users/id returns the same record or the same 404 failure as GET
/authors/id, for every id. -/
theorem legacy_endpoints_delegate (table : List AuthorRow) (user_id : Nat) :
    read_users_legacy table = get_authors table 100 ∧
    read_users_legacy table = .ok (get_all_authors table 100) ∧
    read_user_legacy table user_id = get_author table user_id := by
  refine ⟨rfl, ?_, rfl⟩
  unfold read_users_legacy get_authors
  rw [if_pos]
  exact ⟨by norm_num, by norm_num⟩
